import Mathlib

/-!
Verification development for the Boursorama PDF-statement importer
(`pdfbourso/pdfbourso.py`).  The importer's statement parsing engine is
embedded shallowly: document texts are lists of characters, the regular
expressions the code searches with are embedded as backtracking matchers
over those lists, Python `Decimal`/`beancount.D` numeric parsing is
modelled as partial functions into `ℚ`, and the records the importer
emits are modelled as explicit structures.  Fallible Python code (a
regex that does not match followed by a crashing use, a `KeyError` on a
missing account, an `InvalidOperation` from `Decimal`) is modelled with
`Option`: `none` means the document yields no value at that point,
whether by exception or by an explicit `return None`.
-/

namespace Pdfbourso

/-- Shorthand turning a string literal into the character list the
matchers consume. -/
def S (s : String) : List Char := s.data

/-- Characters matched by Python's `\s` on `str` patterns (ASCII
whitespace plus the no-break space, which Python also treats as Unicode
whitespace). -/
def isWsChar (c : Char) : Bool :=
  c = ' ' || c = '\t' || c = '\n' || c = '\r' || c = '\x0b' || c = '\x0c' || c = '\xa0'

/-- Characters matched by `\d` (the statements only contain ASCII digits). -/
def isDigitChar (c : Char) : Bool := c.isDigit

/-- Characters matched by `.` in a Python pattern compiled without
`DOTALL`: anything but a newline. -/
def anyNoNl (c : Char) : Bool := !(c = '\n')

/-- Captured groups of a match: group number paired with the consumed text. -/
abbrev Caps := List (Nat × List Char)

/-- A successful match: the rest of the input after the match, plus captures. -/
abbrev MRes := List Char × Caps

/-- A match continuation. -/
abbrev K := List Char → Caps → Option MRes

/-- A matcher in continuation-passing style; alternatives are ordered the
way a backtracking regex engine orders them, so the first `some` is the
match Python's `re` would produce at that position. -/
abbrev M := K → K

/-- The empty matcher. -/
def mid : M := fun k => k

/-- Match a literal string. -/
def mlit (s : List Char) : M := fun k inp caps =>
  if s.isPrefixOf inp then k (inp.drop s.length) caps else none

/-- Match one character of a class. -/
def mcls (p : Char → Bool) : M := fun k inp caps =>
  match inp with
  | [] => none
  | c :: r => if p c then k r caps else none

/-- Sequencing. -/
def mseq (a b : M) : M := fun k => a (b k)

/-- Sequence a list of matchers. -/
def mseqs (l : List M) : M := l.foldr mseq mid

/-- Ordered alternation (`a|b`): the left branch has priority. -/
def malt (a b : M) : M := fun k inp caps => a k inp caps <|> b k inp caps

/-- Greedy option (`a?`). -/
def mopt (a : M) : M := fun k inp caps => a k inp caps <|> k inp caps

/-- Greedy Kleene star over a character class (`p*`): consume as much as
possible, backtracking one character at a time. -/
def mstarGo (p : Char → Bool) (k : K) : List Char → Caps → Option MRes
  | [], caps => k [] caps
  | c :: r, caps => (if p c then mstarGo p k r caps else none) <|> k (c :: r) caps

/-- Greedy `p*` as a matcher. -/
def mstarCls (p : Char → Bool) : M := fun k => mstarGo p k

/-- Lazy Kleene star over a character class (`p*?`). -/
def mstarLazyGo (p : Char → Bool) (k : K) : List Char → Caps → Option MRes
  | [], caps => k [] caps
  | c :: r, caps => k (c :: r) caps <|> (if p c then mstarLazyGo p k r caps else none)

/-- Greedy `p+`. -/
def mplusCls (p : Char → Bool) : M := mseq (mcls p) (mstarCls p)

/-- Lazy `p+?`. -/
def mplusLazyCls (p : Char → Bool) : M := mseq (mcls p) (fun k => mstarLazyGo p k)

/-- Exactly `n` characters of a class (`p{n}`). -/
def mtimes (p : Char → Bool) : Nat → M
  | 0 => mid
  | n + 1 => mseq (mcls p) (mtimes p n)

/-- Greedy `p{0,n}`. -/
def mrepUp (p : Char → Bool) : Nat → M
  | 0 => mid
  | n + 1 => mopt (mseq (mcls p) (mrepUp p n))

/-- Greedy `p{lo,hi}`. -/
def mrep (p : Char → Bool) (lo hi : Nat) : M := mseq (mtimes p lo) (mrepUp p (hi - lo))

/-- Capture group `n`. -/
def mgrp (n : Nat) (a : M) : M := fun k inp caps =>
  a (fun inp2 caps2 => k inp2 ((n, inp.take (inp.length - inp2.length)) :: caps2)) inp caps

/-- Run a matcher anchored at the start of the input. -/
def matchHere (m : M) (inp : List Char) : Option MRes :=
  m (fun rest caps => some (rest, caps)) inp []

/-- `re.search`: try the matcher at each position, leftmost first. -/
def msearch (m : M) : List Char → Option MRes
  | [] => matchHere m []
  | c :: r => matchHere m (c :: r) <|> msearch m r

/-- Text of capture group `n`, the empty string when the group did not
participate in the match (as Python's `findall` reports it). -/
def capStr (caps : Caps) (n : Nat) : List Char :=
  ((caps.find? (fun x => x.1 == n)).map (fun x => x.2)).getD []

/-- `re.findall` worker: scan left to right, restarting after each match
(none of the embedded patterns matches the empty string). -/
def mfindallFuel (m : M) : Nat → List Char → List Caps
  | 0, _ => []
  | _ + 1, [] => []
  | fuel + 1, c :: r =>
    match matchHere m (c :: r) with
    | some (rest, caps) =>
      if rest.length < (c :: r).length then caps :: mfindallFuel m fuel rest
      else caps :: mfindallFuel m fuel r
    | none => mfindallFuel m fuel r

/-- `re.findall`, returning the captures of every match. -/
def mfindall (m : M) (inp : List Char) : List Caps := mfindallFuel m (inp.length + 1) inp

/-- Whether a literal substring occurs in the text (`re.search` on a
pattern with no metacharacters). -/
def hasSub (pat t : List Char) : Bool := (msearch (mlit pat) t).isSome

/-! ## Numeric parsing (Python `Decimal`, beancount `D`) -/

/-- Numeric value of a digit string (most significant first). -/
def natOfDigits (l : List Char) : Nat :=
  l.foldl (fun a c => a * 10 + (c.toNat - '0'.toNat)) 0

/-- Every character is an ASCII digit. -/
def allDigits (l : List Char) : Bool := l.all isDigitChar

/-- All-digit, non-empty string to `Nat`. -/
def parseNatDigits (l : List Char) : Option Nat :=
  if !l.isEmpty && allDigits l then some (natOfDigits l) else none

/-- A Python `Decimal` value: a signed mantissa and the count of digits
after the point, so `Decimal("12.50")` is `⟨1250, 2⟩` and its numeric
value is `man / 10 ^ exp`.  This is exactly the coefficient/exponent
pair `Decimal` stores, and all the arithmetic the importer performs on
amounts (negation, multiplication by `±1`, addition) is exact on it. -/
structure Dec where
  man : Int
  exp : Nat
deriving DecidableEq

/-- The exact rational value of a `Decimal`. -/
def Dec.val (d : Dec) : ℚ := (d.man : ℚ) / (10 : ℚ) ^ d.exp

/-- `Decimal.__neg__` / the unary minus of a parsed `-`-prefixed string. -/
def decNeg (d : Dec) : Dec := ⟨-d.man, d.exp⟩

/-- Multiplication by the integer `1` or `-1`, as in
`Decimal(...) * (1 if ... else -1)`: the exponent is unchanged. -/
def decScale (s : Int) (d : Dec) : Dec := ⟨s * d.man, d.exp⟩

/-- Exact `Decimal` addition: the result carries the finer of the two
exponents. -/
def decAdd (a b : Dec) : Dec :=
  if a.exp ≤ b.exp then ⟨a.man * (10 : Int) ^ (b.exp - a.exp) + b.man, b.exp⟩
  else ⟨a.man + b.man * (10 : Int) ^ (a.exp - b.exp), a.exp⟩

/-- Unsigned decimal literal as Python's `Decimal` accepts it once the
sign is stripped: digits with at most one point and at least one digit
(`"12"`, `"12."`, `".5"`); anything else — in particular the empty
string — raises `InvalidOperation`, modelled as `none`.  (`Decimal` also
accepts exponents and special values; none of the importer's inputs has
them.) -/
def parseUnsignedDec (l : List Char) : Option Dec :=
  match l.splitOn '.' with
  | [a] => if !a.isEmpty && allDigits a then some ⟨(natOfDigits a : Int), 0⟩ else none
  | [a, b] =>
    if !(a ++ b).isEmpty && allDigits a && allDigits b then
      some ⟨(natOfDigits (a ++ b) : Int), b.length⟩
    else none
  | _ => none

/-- Python's `Decimal` constructor on a string: an optional sign then an
unsigned decimal literal; failure (`InvalidOperation`) is `none`. -/
def pyDecimal (l : List Char) : Option Dec :=
  if l.head? = some '-' then (parseUnsignedDec l.tail).map decNeg
  else if l.head? = some '+' then parseUnsignedDec l.tail
  else parseUnsignedDec l

/-- beancount's `D` helper: the empty string becomes `Decimal()` — that
is, zero — and otherwise commas and underscores are removed before
`Decimal` parses the rest. -/
def pyD (l : List Char) : Option Dec :=
  if l.isEmpty then some ⟨0, 0⟩
  else pyDecimal (l.filter (fun c => !(c = ',' || c = '_')))

/-! ## The amount-normalization string chains -/

/-- `.replace(",", ".")` on one character. -/
def commaToDot (c : Char) : Char := if c = ',' then '.' else c

/-- `.replace(",", ".")`. -/
def mapComma (l : List Char) : List Char := l.map commaToDot

/-- `.replace(" ", "")`. -/
def stripSpaces (l : List Char) : List Char := l.filter (fun c => !(c = ' '))

/-- `.replace("\xa0", "")`. -/
def stripNbsp (l : List Char) : List Char := l.filter (fun c => !(c = '\xa0'))

/-- `.replace(".", "")`. -/
def stripDots (l : List Char) : List Char := l.filter (fun c => !(c = '.'))

/-- The five characters of the raw-string pattern `r"\u00a"` that the
code removes (a literal backslash-u-0-0-a, not a unicode escape). -/
def backslashSeq : List Char := ['\x5c', 'u', '0', '0', 'a']

/-- `.replace(r"\u00a", "")` worker: structural recursion on a fuel
that each step strictly consumes, so the kernel can evaluate it. -/
def replaceU00aFuel : Nat → List Char → List Char
  | 0, l => l
  | _ + 1, [] => []
  | fuel + 1, c :: r =>
    if backslashSeq.isPrefixOf (c :: r) then replaceU00aFuel fuel (r.drop 4)
    else c :: replaceU00aFuel fuel r

/-- `.replace(r"\u00a", "")`: remove every occurrence of the literal
five-character sequence. -/
def replaceU00a (l : List Char) : List Char := replaceU00aFuel l.length l

/-- The amount normalization chain used for every `Decimal`-parsed field
of the dividend/trade/fund dialects:
`.replace(",", ".").replace(" ", "").replace("\xa0", "").replace(r"\u00a", "")`. -/
def pyNormalize (l : List Char) : List Char :=
  replaceU00a (stripNbsp (stripSpaces (mapComma l)))

/-- The chain used by the checking-account and card dialects:
`.replace(".", "").replace(",", ".")` (thousands points removed, then the
decimal comma becomes a point). -/
def compteNorm (l : List Char) : List Char := mapComma (stripDots l)

/-- The chain used by the cash-statement dialect:
`.replace(" ", "").replace(",", ".")`. -/
def especeNorm (l : List Char) : List Char := mapComma (stripSpaces l)

/-- Replace the first comma of a list by a point. -/
def replaceFirstComma : List Char → List Char
  | [] => []
  | c :: r => if c = ',' then '.' :: r else c :: replaceFirstComma r

/-- Modelled from the spec: the Amount Normalizer contract of §4.1 —
"strip all space-class separators (ordinary space and non-breaking
space) unconditionally; replace the last remaining comma with a period
if a comma is present".  Used only to compare against `pyNormalize`,
which is translated from the code. -/
def specNormalize (l : List Char) : List Char :=
  let t := stripNbsp (stripSpaces l)
  if ',' ∈ t then (replaceFirstComma t.reverse).reverse else t

/-- The exact chain of the dividend dialect's first (optional)
withholding column: the normalized string goes through Python's
`x or 0`, so an empty normalization result is parsed as the number `0`
instead of raising. -/
def dividendImpotComponent (s : List Char) : Option Dec :=
  if (pyNormalize s).isEmpty then some ⟨0, 0⟩ else pyDecimal (pyNormalize s)

/-! ## Dates -/

/-- A Gregorian calendar date. -/
structure Date where
  year : Nat
  month : Nat
  day : Nat
deriving DecidableEq

/-- Gregorian leap year. -/
def isLeapYear (y : Nat) : Bool := (y % 4 == 0 && !(y % 100 == 0)) || y % 400 == 0

/-- Days in a month. -/
def daysInMonth (y m : Nat) : Nat :=
  if m == 2 then (if isLeapYear y then 29 else 28)
  else if m == 4 || m == 6 || m == 9 || m == 11 then 30 else 31

/-- The day after, as `date + datetime.timedelta(1)` computes it. -/
def nextDay (d : Date) : Date :=
  if d.day < daysInMonth d.year d.month then ⟨d.year, d.month, d.day + 1⟩
  else if d.month < 12 then ⟨d.year, d.month + 1, 1⟩
  else ⟨d.year + 1, 1, 1⟩

/-- `dateutil.parser.parse(s, dayfirst=True).date()` on the
day/month/year strings the importer's patterns capture: three
slash-separated digit fields, day first.  (dateutil maps a two-digit
year into the century window around today; the importer's documents all
carry four-digit years, and the two-digit case is modelled as `2000+y`.)
An out-of-range day or month raises, modelled as `none`. -/
def parseDateFR (l : List Char) : Option Date :=
  match l.splitOn '/' with
  | [a, b, c] =>
    match parseNatDigits a, parseNatDigits b, parseNatDigits c with
    | some d, some m, some yr =>
      let y := if yr < 100 then 2000 + yr else yr
      if 1 ≤ m ∧ m ≤ 12 ∧ 1 ≤ d ∧ d ≤ daysInMonth y m then some ⟨y, m, d⟩ else none
    | _, _, _ => none
  | _ => none

/-! ## Record model (beancount `data.Posting` / `Transaction` / `Balance`) -/

/-- `amount.Amount`: a number with a currency. -/
structure Amount' where
  number : Dec
  currency : String
deriving DecidableEq

/-- `position.Cost` (the importer never fills date or label). -/
structure Cost' where
  number : Dec
  currency : String
deriving DecidableEq

/-- One transaction leg. -/
structure Posting where
  account : String
  units : Amount'
  cost : Option Cost'
  price : Option Amount'
deriving DecidableEq

/-- A record's metadata map, in insertion order.  `data.new_metadata`
seeds it with the filename and the line number (kept here as its decimal
string); the importer then adds its own keys. -/
abbrev Meta := List (String × String)

/-- A transaction record (links are always empty and are omitted). -/
structure Transaction' where
  meta : Meta
  date : Date
  flag : String
  payee : String
  narration : Option String
  tags : List String
  postings : List Posting
deriving DecidableEq

/-- A balance assertion.  The date is an `Option` because the
checking-account branch can reach `data.Balance` with the placeholder
empty string it initialized instead of a date; `none` models that
placeholder. -/
structure BalanceRec where
  meta : Meta
  date : Option Date
  account : String
  amount : Amount'
deriving DecidableEq

/-- One emitted record. -/
inductive Entry where
  | txn (t : Transaction')
  | bal (b : BalanceRec)
deriving DecidableEq

/-- `data.new_metadata(file.name, index)`. -/
def newMetadata (fn : String) (idx : Nat) : Meta :=
  [("filename", fn), ("lineno", Nat.repr idx)]

/-- Metadata as every branch except Amortissement builds it: filename,
lineno, then `meta["source"]` and `meta["document"]`. -/
def metaWithDoc (fn : String) (idx : Nat) (document : String) : Meta :=
  newMetadata fn idx ++ [("source", "pdfbourso"), ("document", document)]

/-- Metadata as the Amortissement branch builds it: it sets
`meta["source"]` but never `meta["document"]`. -/
def metaAmort (fn : String) (idx : Nat) : Meta :=
  newMetadata fn idx ++ [("source", "pdfbourso")]

/-! ## Document classification (`identify`) -/

/-- `RCS\sNanterre\s351\s?058\s?151`. -/
def rcsPat : M :=
  mseqs [mlit (S ("RCS")), mcls isWsChar, mlit (S ("Nanterre")), mcls isWsChar,
    mlit (S ("351")), mopt (mcls isWsChar), mlit (S ("058")), mopt (mcls isWsChar),
    mlit (S ("151"))]

/-- Whether the RCS marker occurs. -/
def hasRcs (t : List Char) : Bool := (msearch rcsPat t).isSome

/-- The generic bank-identity alternation
`BOURSORAMA BANQUE|BOUSFRPPXXX|RCS\sNanterre\s351\s?058\s?151`. -/
def comptePresent (t : List Char) : Bool :=
  hasSub (S ("BOURSORAMA BANQUE")) t || hasSub (S ("BOUSFRPPXXX")) t || hasRcs t

/-- The amortization alternation
`tableau d'amortissement|Echéancier Prévisionnel|Échéancier Définitif`. -/
def amortPresent (t : List Char) : Bool :=
  hasSub (S ("tableau d\x27amortissement")) t || hasSub (S ("Echéancier Prévisionnel")) t ||
    hasSub (S ("Échéancier Définitif")) t

/-- The dialect tag `identify` stores in `self.type`, determined by the
fixed chain of `re.search` presence checks (lines 63–96), first match
wins; `none` when no marker matches. -/
def classify (t : List Char) : Option String :=
  if hasSub (S ("COUPONS REMBOURSEMENTS :")) t then some ("DividendeBourse")
  else if hasSub (S ("RELEVE COMPTE ESPECES :")) t then some ("EspeceBourse")
  else if hasSub (S ("OPERATION DE BOURSE")) t then some ("Bourse")
  else if hasSub (S ("OPERATION SUR OPC")) t then some ("OPCVM")
  else if hasSub (S ("Relevé de Carte")) t then some ("CB")
  else if comptePresent t then some ("Compte")
  else if amortPresent t then some ("Amortissement")
  else none

/-- One `identify` call on a PDF whose text is `t`, given the current
`self.type` (set by whichever document this importer instance classified
last, or unset).  On a match the tag is stored and `1` is returned; when
nothing matches the function falls through: it returns `None` and leaves
`self.type` untouched. -/
def identifyStep (st : Option String) (t : List Char) : Option String × Option Nat :=
  match classify t with
  | some tag => (some tag, some 1)
  | none => (st, none)

/-- An ordered table of the same presence checks, used to state that
classification is first-match-wins over a fixed priority list. -/
def markerChecks : List ((List Char → Bool) × String) :=
  [(fun t => hasSub (S ("COUPONS REMBOURSEMENTS :")) t, "DividendeBourse"),
   (fun t => hasSub (S ("RELEVE COMPTE ESPECES :")) t, "EspeceBourse"),
   (fun t => hasSub (S ("OPERATION DE BOURSE")) t, "Bourse"),
   (fun t => hasSub (S ("OPERATION SUR OPC")) t, "OPCVM"),
   (fun t => hasSub (S ("Relevé de Carte")) t, "CB"),
   (comptePresent, "Compte"),
   (amortPresent, "Amortissement")]

/-- Tag of the first check of the table that matches. -/
def firstMatchTag : List ((List Char → Bool) × String) → List Char → Option String
  | [], _ => none
  | p :: rest, t => if p.1 t then some (p.2) else firstMatchTag rest t

/-! ## `file_name` and the display document name -/

/-- `file_name` (lines 98–112): the human label per stored dialect tag;
every other tag — including `Amortissement` — falls to the generic
default. -/
def fileName (ty : String) : String :=
  if ty = "DividendeBourse" then "Relevé Dividendes.pdf"
  else if ty = "EspeceBourse" then "Relevé Espece.pdf"
  else if ty = "Bourse" then "Relevé Operation.pdf"
  else if ty = "Compte" then "Relevé Compte.pdf"
  else if ty = "CB" then "Relevé CB.pdf"
  else "Boursorama.pdf"

/-- Two-digit zero padding. -/
def pad2 (n : Nat) : String := if n < 10 then "0" ++ Nat.repr n else Nat.repr n

/-- `str(...)` of a `datetime.date`: ISO `yyyy-mm-dd`. -/
def isoDate (d : Date) : String :=
  Nat.repr d.year ++ "-" ++ pad2 d.month ++ "-" ++ pad2 d.day

/-- `document = str(self.file_date(file)) + " " + self.file_name(file)`;
when `file_date` found no date, Python renders `str(None)`. -/
def mkDocument (d : Option Date) (name : String) : String :=
  (match d with
   | some dt => isoDate dt
   | none => "None") ++ " " ++ name

/-! ## `file_account`: account patterns and dialect suffixes -/

/-- `\s*(\d{11})`. -/
def acctComptePat : M := mseqs [mstarCls isWsChar, mgrp 1 (mtimes isDigitChar 11)]

/-- Group 1 of the checking-account pattern. -/
def findCompteAcct (t : List Char) : Option (List Char) :=
  (msearch acctComptePat t).map (fun r => capStr r.2 1)

/-- `\s*((4979|4810)\*{8}\d{4})`. -/
def acctCBPat : M :=
  mseqs [mstarCls isWsChar,
    mgrp 1 (mseqs [mgrp 2 (malt (mlit (S ("4979"))) (mlit (S ("4810")))),
      mtimes (fun c => c = '*') 8, mtimes isDigitChar 4])]

/-- Group 1 of the card pattern. -/
def findCBAcct (t : List Char) : Option (List Char) :=
  (msearch acctCBPat t).map (fun r => capStr r.2 1)

/-- `N(?:°|º) du crédit\s*:\s?(\d{5}\s?-\s?\d{11})`. -/
def acctCreditPat : M :=
  mseqs [mlit (S ("N")), malt (mlit (S ("°"))) (mlit (S ("º"))), mlit (S (" du crédit")),
    mstarCls isWsChar, mlit (S (":")), mopt (mcls isWsChar),
    mgrp 1 (mseqs [mtimes isDigitChar 5, mopt (mcls isWsChar), mlit (S ("-")),
      mopt (mcls isWsChar), mtimes isDigitChar 11])]

/-- Group 1 of the loan-reference pattern. -/
def findCreditAcct (t : List Char) : Option (List Char) :=
  (msearch acctCreditPat t).map (fun r => capStr r.2 1)

/-- `40618\s\d{5}\s(\d{11})\s`. -/
def acctEspecePat : M :=
  mseqs [mlit (S ("40618")), mcls isWsChar, mtimes isDigitChar 5, mcls isWsChar,
    mgrp 1 (mtimes isDigitChar 11), mcls isWsChar]

/-- Group 1 of the brokerage cash/dividend account pattern. -/
def findEspeceAcct (t : List Char) : Option (List Char) :=
  (msearch acctEspecePat t).map (fun r => capStr r.2 1)

/-- `\d{5}\s\d{5}\s(\d{11})\s`. -/
def acctBoursePat : M :=
  mseqs [mtimes isDigitChar 5, mcls isWsChar, mtimes isDigitChar 5, mcls isWsChar,
    mgrp 1 (mtimes isDigitChar 11), mcls isWsChar]

/-- Group 1 of the trade/fund account pattern. -/
def findBourseAcct (t : List Char) : Option (List Char) :=
  (msearch acctBoursePat t).map (fun r => capStr r.2 1)

/-- `Code ISIN\s:\s*([A-Z,0-9]{12})` (the class really contains a comma). -/
def isinPat : M :=
  mseqs [mlit (S ("Code ISIN")), mcls isWsChar, mlit (S (":")), mstarCls isWsChar,
    mgrp 1 (mtimes (fun c => c.isUpper || c = ',' || c.isDigit) 12)]

/-- Group 1 of the ISIN pattern. -/
def findIsin (t : List Char) : Option (List Char) :=
  (msearch isinPat t).map (fun r => capStr r.2 1)

/-- `file_account` (lines 114–157) given the stored dialect tag and the
caller-supplied account directory `al`.  A failed pattern, a missing
directory key (a `KeyError` in Python) or an unhandled tag (unbound
`control`) all yield `none`: no account string is produced.  Note the
code's second branch tests the never-assigned tag `"EspeceDividende"`,
not `"EspeceBourse"`, so a cash-statement document takes the final
`else` and gets no suffix. -/
def fileAccount (al : String → Option String) (ty : String) (t : List Char) :
    Option String := do
  let compte ←
    (if ty = "Compte" then findCompteAcct t
     else if ty = "CB" then findCBAcct t
     else if ty = "Amortissement" then findCreditAcct t
     else if ty = "EspeceBourse" ∨ ty = "DividendeBourse" then findEspeceAcct t
     else if ty = "Bourse" ∨ ty = "OPCVM" then findBourseAcct t
     else none)
  if ty = "Bourse" ∨ ty = "OPCVM" then
    match findIsin t with
    | some isin => do
      let base ← al compte.asString
      pure (base ++ ":" ++ isin.asString)
    | none => none
  else if ty = "DividendeBourse" ∨ ty = "EspeceDividende" then do
    let base ← al compte.asString
    pure (base ++ ":Cash")
  else al compte.asString

/-! ## Importer construction (`__init__`) -/

/-- The importer's constructed state: the account directory and the
debug flag. -/
structure PdfBoursoState where
  accountList : String → Option String
  debug : Bool

/-- `__init__(self, accountList, debug=False)` (lines 29–44): the
account directory must be a dict (enforced here by the type), and
`self.debug` is assigned the literal `True` — the `debug` parameter is
never read. -/
def pdfboursoInit (accountList : String → Option String) (debug : Bool) : PdfBoursoState :=
  { accountList := accountList, debug := true }

/-! ## Dialect builders

Each builder is the body of one branch of `extract` (lines 174–995),
applied to the tuple a `re.findall` chunk or the `re.search` groups
deliver; `document` is the display name computed at the top of
`extract` and `fn` is `file.name`. -/

/-- `re.sub(r"\s+", " ", s)`: collapse whitespace runs to single spaces. -/
def squashWsAux : Bool → List Char → List Char
  | _, [] => []
  | prevWs, c :: r =>
    if isWsChar c then
      (if prevWs then squashWsAux true r else ' ' :: squashWsAux true r)
    else c :: squashWsAux false r

/-- `re.sub(r"\s+", " ", s)` from a fresh start. -/
def squashWs (l : List Char) : List Char := squashWsAux false l

/-- The nine captured columns of one dividend line (groups 1–9 of the
pattern at line 190; group 6 is optional). -/
structure DivChunk where
  c0 : List Char
  c1 : List Char
  c2 : List Char
  c3 : List Char
  c4 : List Char
  c5 : List Char
  c6 : List Char
  c7 : List Char
  c8 : List Char
deriving DecidableEq

/-- One DividendeBourse transaction (lines 195–271); `account` is the
`file_account` result for the document. -/
def dividendEntry (account document fn : String) (ch : DivChunk) : Option Entry := do
  let gross ← pyDecimal (pyNormalize ch.c4)
  let t1 ← dividendImpotComponent ch.c5
  let t2 ← pyDecimal (pyNormalize ch.c6)
  let net ← pyDecimal (pyNormalize ch.c7)
  let d ← parseDateFR ch.c0
  pure (Entry.txn
    { meta := metaWithDoc fn 0 document
      date := d
      flag := "*"
      payee := "Dividende pour " ++ ch.c1.asString ++ " titres " ++ ch.c2.asString
      narration := none
      tags := [ch.c3.asString]
      postings :=
        [{ account := "Revenus:Dividendes", units := ⟨decScale (-1) gross, "EUR"⟩,
           cost := none, price := none },
         { account := "Depenses:Impots:IR", units := ⟨decAdd t1 t2, "EUR"⟩,
           cost := none, price := none },
         { account := account, units := ⟨net, "EUR"⟩, cost := none, price := none }] })

/-- The two captured groups of one cash-statement `SOLDE` line. -/
structure EspChunk where
  c0 : List Char
  c1 : List Char
deriving DecidableEq

/-- One EspeceBourse balance assertion (lines 280–295); `account` is the
`file_account` result, to which the branch itself appends `":Cash"`. -/
def especeEntry (account document fn : String) (ch : EspChunk) : Option Entry := do
  let d ← parseDateFR ch.c0
  let v ← pyD (especeNorm ch.c1)
  pure (Entry.bal
    { meta := metaWithDoc fn 0 document
      date := some d
      account := account ++ ":Cash"
      amount := ⟨v, "EUR"⟩ })

/-- The fields the Bourse branch collects into `ope` before building its
transaction (lines 310–360). -/
structure BourseFields where
  montantTotal : List Char
  currencyTotal : String
  frais : List Char
  currencyFrais : String
  isin : String
  dateStr : List Char
  quantite : List Char
  designation : String
  cours : List Char
  currencyCours : String
deriving DecidableEq

/-- `ope["Achat"]`: presence of the cash-purchase marker (lines 355–360). -/
def bourseAchat (t : List Char) : Bool := hasSub (S ("ACHAT COMPTANT")) t

/-- The Bourse transaction (lines 362–457): security leg signed by the
purchase flag with a cost basis only on purchase, cash leg signed the
opposite way, flat fee leg. -/
def bourseEntry (al : String → Option String) (compte : String) (f : BourseFields)
    (t : List Char) (document fn : String) : Option Entry := do
  let achat := bourseAchat t
  let q ← pyDecimal (pyNormalize f.quantite)
  let crs ← pyDecimal (pyNormalize f.cours)
  let base ← al compte
  let total ← pyDecimal (pyNormalize f.montantTotal)
  let fr ← pyDecimal (pyNormalize f.frais)
  let d ← parseDateFR f.dateStr
  pure (Entry.txn
    { meta := metaWithDoc fn 0 document
      date := d
      flag := "*"
      payee := if f.designation.isEmpty then "inconnu" else f.designation
      narration := some f.isin
      tags := []
      postings :=
        [{ account := base ++ ":" ++ f.isin
           units := ⟨decScale (if achat then 1 else -1) q, f.isin⟩
           cost := if achat then some ⟨crs, f.currencyCours⟩ else none
           price := some ⟨crs, f.currencyCours⟩ },
         { account := base ++ ":Cash"
           units := ⟨decScale (if achat then -1 else 1) total, f.currencyTotal⟩
           cost := none, price := none },
         { account := "Depenses:Banque:Frais", units := ⟨fr, f.currencyFrais⟩,
           cost := none, price := none }] })

/-- The fields the OPCVM branch collects (lines 470–518): like Bourse
plus the entry-fee column `Droits`. -/
structure OpcvmFields where
  montantTotal : List Char
  currencyTotal : String
  frais : List Char
  currencyFrais : String
  droits : List Char
  isin : String
  dateStr : List Char
  quantite : List Char
  designation : String
  cours : List Char
  currencyCours : String
deriving DecidableEq

/-- `ope["Achat"]` for funds: presence of the subscription marker. -/
def opcvmAchat (t : List Char) : Bool := hasSub (S ("SOUSCRIPTION")) t

/-- The OPCVM transaction (lines 520–622); the fee leg sums `Frais` and
`Droits`. -/
def opcvmEntry (al : String → Option String) (compte : String) (f : OpcvmFields)
    (t : List Char) (document fn : String) : Option Entry := do
  let achat := opcvmAchat t
  let q ← pyDecimal (pyNormalize f.quantite)
  let crs ← pyDecimal (pyNormalize f.cours)
  let base ← al compte
  let total ← pyDecimal (pyNormalize f.montantTotal)
  let fr ← pyDecimal (pyNormalize f.frais)
  let dr ← pyDecimal (pyNormalize f.droits)
  let d ← parseDateFR f.dateStr
  pure (Entry.txn
    { meta := metaWithDoc fn 0 document
      date := d
      flag := "*"
      payee := if f.designation.isEmpty then "inconnu" else f.designation
      narration := some f.isin
      tags := []
      postings :=
        [{ account := base ++ ":" ++ f.isin
           units := ⟨decScale (if achat then 1 else -1) q, f.isin⟩
           cost := if achat then some ⟨crs, f.currencyCours⟩ else none
           price := some ⟨crs, f.currencyCours⟩ },
         { account := base ++ ":Cash"
           units := ⟨decScale (if achat then -1 else 1) total, f.currencyTotal⟩
           cost := none, price := none },
         { account := "Depenses:Banque:Frais", units := ⟨decAdd fr dr, f.currencyFrais⟩,
           cost := none, price := none }] })

/-! ## The Compte (checking account) branch (lines 624–792) -/

/-- `\d{1,2}\/\d{2}\/\d{4}` — a statement date. -/
def datePat : M :=
  mseqs [mrep isDigitChar 1 2, mlit (S ("/")), mtimes isDigitChar 2, mlit (S ("/")),
    mtimes isDigitChar 4]

/-- `(?:\d{1,3}\.)?\d{1,3},\d{2}` — an amount with an optional thousands
point and a decimal comma. -/
def amtPat : M :=
  mseqs [mopt (mseqs [mrep isDigitChar 1 3, mlit (S ("."))]), mrep isDigitChar 1 3,
    mlit (S (",")), mtimes isDigitChar 2]

/-- The opening-balance pattern (line 636):
`SOLDE\s(?:EN\sEUR\s+)?AU\s:(\s+)(\d{1,2}\/\d{2}\/\d{4})(\s+)((?:\d{1,3}\.)?\d{1,3},\d{2})`. -/
def balancePat : M :=
  mseqs [mlit (S ("SOLDE")), mcls isWsChar,
    mopt (mseqs [mlit (S ("EN")), mcls isWsChar, mlit (S ("EUR")), mplusCls isWsChar]),
    mlit (S ("AU")), mcls isWsChar, mlit (S (":")),
    mgrp 1 (mplusCls isWsChar), mgrp 2 datePat, mgrp 3 (mplusCls isWsChar), mgrp 4 amtPat]

/-- The transaction-line pattern (line 677):
`\d{1,2}\/\d{2}\/\d{4}\s(.*)\s(\d{1,2}\/\d{2}\/\d{4})\s(\s*)\s((?:\d{1,3}\.)?\d{1,3},\d{2})(?:(?:\n.\s{8,20})(.+?))?\n`. -/
def compteTxnPat : M :=
  mseqs [datePat, mcls isWsChar, mgrp 1 (mstarCls anyNoNl), mcls isWsChar,
    mgrp 2 datePat, mcls isWsChar, mgrp 3 (mstarCls isWsChar), mcls isWsChar,
    mgrp 4 amtPat,
    mopt (mseqs [mlit (S ("\n")), mcls anyNoNl, mrep isWsChar 8 20,
      mgrp 5 (mplusLazyCls anyNoNl)]),
    mlit (S ("\n"))]

/-- The closing-balance pattern (line 759):
`Nouveau solde en EUR :(\s+)((?:\d{1,3}\.)?(?:\d{1,3}\.)?\d{1,3},\d{2})`. -/
def closingPat : M :=
  mseqs [mlit (S ("Nouveau solde en EUR :")), mgrp 1 (mplusCls isWsChar),
    mgrp 2 (mseqs [mopt (mseqs [mrep isDigitChar 1 3, mlit (S ("."))]),
      mopt (mseqs [mrep isDigitChar 1 3, mlit (S ("."))]),
      mrep isDigitChar 1 3, mlit (S (",")), mtimes isDigitChar 2])]

/-- The closing-balance date pattern (line 771):
`(\d{1,2}\/\d{2}\/\d{4}).*40618`. -/
def closingDatePat : M :=
  mseqs [mgrp 1 datePat, mstarCls anyNoNl, mlit (S ("40618"))]

/-- The account pattern of the Compte branch (line 626), `\s*\d{11}`
with no group: `compte` is recovered from `match.group(0)`. -/
def acctCompte0Pat : M := mgrp 0 (mseqs [mstarCls isWsChar, mtimes isDigitChar 11])

/-- Group 0 of the Compte branch's account search. -/
def findCompteAcct0 (t : List Char) : Option (List Char) :=
  (msearch acctCompte0Pat t).map (fun r => capStr r.2 0)

/-- `group(0).split(" ")[-1]`. -/
def lastSpaceSegment (l : List Char) : List Char := ((l.splitOn ' ').getLast?).getD l

/-- The signed opening-balance string (lines 644–653): the combined
length of groups 1, 3, 2 and 4 decides the sign — a `-` is prepended
exactly when it is `< 84`. -/
def compteBalanceSigned (g1 g2 g3 g4 : List Char) : List Char :=
  let longueur := g1.length + g3.length + g2.length + g4.length
  let b := compteNorm g4
  if longueur < 84 then '-' :: b else b

/-- The opening-balance data (lines 636–653): when the pattern is
absent, `datebalance` and `balance` keep their empty-string initial
values (first component `none`, second `[]`); a match shifts the date by
one day and signs the amount. -/
def compteOpeningData (t : List Char) : Option (Option Date × List Char) :=
  match msearch balancePat t with
  | none => some (none, [])
  | some (_, caps) =>
    (parseDateFR (capStr caps 2)).map (fun d =>
      (some (nextDay d),
        compteBalanceSigned (capStr caps 1) (capStr caps 2) (capStr caps 3) (capStr caps 4)))

/-- The opening balance record (lines 662–675).  The `entries.append`
is unconditional: it runs whether or not the pattern matched, so a miss
still produces a record carrying the empty placeholders (`D("")` is
zero). -/
def compteOpeningEntry (acct document fn : String) (t : List Char) : Option Entry := do
  let (db, bs) ← compteOpeningData t
  let v ← pyD bs
  pure (Entry.bal
    { meta := metaWithDoc fn 0 document, date := db, account := acct, amount := ⟨v, "EUR"⟩ })

/-- One transaction line (lines 685–756) from the five findall groups:
the combined length of groups 1–4 decides the sign — the amount is
negated unless it is `> 148`. -/
def compteTxnEntry (acct document fn : String) (idx : Nat)
    (g1 g2 g3 g4 g5 : List Char) : Option Entry := do
  let montant := compteNorm g4
  let longueur := g1.length + g2.length + g3.length + g4.length
  let ms := if longueur > 148 then montant else '-' :: montant
  let v ← pyDecimal ms
  let d ← parseDateFR g2
  let payee := (squashWs g1).asString
  pure (Entry.txn
    { meta := metaWithDoc fn idx document
      date := d
      flag := "*"
      payee := if payee.isEmpty then "inconnu" else payee
      narration := some ((squashWs g5).asString)
      tags := []
      postings := [{ account := acct, units := ⟨v, "EUR"⟩, cost := none, price := none }] })

/-- The closing balance (lines 758–792): produced only when both the
closing pattern and its date pattern match; here only the single gap
group's length is compared with 84. -/
def compteClosingEntries (acct document fn : String) (t : List Char) :
    Option (List Entry) :=
  match msearch closingPat t with
  | none => some []
  | some (_, caps) =>
    let b0 := compteNorm (capStr caps 2)
    let b := if (capStr caps 1).length < 84 then '-' :: b0 else b0
    match msearch closingDatePat t with
    | none => some []
    | some (_, caps2) => do
      let d ← parseDateFR (capStr caps2 1)
      let v ← pyD b
      pure [Entry.bal
        { meta := metaWithDoc fn 0 document, date := some d, account := acct,
          amount := ⟨v, "EUR"⟩ }]

/-- The whole Compte branch: account recovery, the unconditional opening
balance, the transaction lines in order, then the closing balance. -/
def compteEntriesM (al : String → Option String) (document fn : String) (t : List Char) :
    Option (List Entry) := do
  let g0 ← findCompteAcct0 t
  let compte := (lastSpaceSegment g0).asString
  let acct ← al compte
  let e0 ← compteOpeningEntry acct document fn t
  let txChunks := mfindall compteTxnPat t
  let txs ← txChunks.enum.mapM (fun p =>
    compteTxnEntry acct document fn (p.1 + 1) (capStr p.2 1) (capStr p.2 2)
      (capStr p.2 3) (capStr p.2 4) (capStr p.2 5))
  let cls ← compteClosingEntries acct document fn t
  pure ([e0] ++ txs ++ cls)

/-! ## The Amortissement branch (lines 794–890) -/

/-- The nine captured columns of one amortization line: the date then
eight `\d+.\d{2}` numeric columns (the code reads columns 2–5 and 8;
`c7` is what it calls `CRD`, the remaining principal due). -/
structure AmortChunk where
  c0 : List Char
  c1 : List Char
  c2 : List Char
  c3 : List Char
  c4 : List Char
  c5 : List Char
  c6 : List Char
  c7 : List Char
  c8 : List Char
deriving DecidableEq

/-- One amortization line (lines 813–890): a four-posting transaction
followed immediately by a balance assertion dated the next day for the
negated remaining principal due.  The metadata never receives a
`document` key in this branch. -/
def amortChunkEntries (al : String → Option String) (compte fn : String) (idx : Nat)
    (ch : AmortChunk) : Option (List Entry) := do
  let d ← parseDateFR ch.c0
  let prel ← pyDecimal ('-' :: mapComma ch.c1)
  let amort ← pyDecimal (mapComma ch.c2)
  let inter ← pyDecimal (mapComma ch.c3)
  let assur ← pyDecimal (mapComma ch.c4)
  let crd ← pyDecimal ('-' :: mapComma ch.c7)
  let acct ← al compte
  pure [Entry.txn
      { meta := metaAmort fn idx
        date := d
        flag := "*"
        payee := "ECH PRET:8028000060686223"
        narration := some ("")
        tags := []
        postings :=
          [{ account := "Actif:Boursorama:CCJoint", units := ⟨prel, "EUR"⟩,
             cost := none, price := none },
           { account := acct, units := ⟨amort, "EUR"⟩, cost := none, price := none },
           { account := "Depenses:Banque:Interet", units := ⟨inter, "EUR"⟩,
             cost := none, price := none },
           { account := "Depenses:Banque:AssuEmprunt", units := ⟨assur, "EUR"⟩,
             cost := none, price := none }] },
    Entry.bal
      { meta := metaAmort fn idx
        date := some (nextDay d)
        account := acct
        amount := ⟨crd, "EUR"⟩ }]

/-! ## The CB (card statement) branch (lines 892–993) -/

/-- The three captured groups of one card line. -/
structure CBChunk where
  c0 : List Char
  c1 : List Char
  c2 : List Char
deriving DecidableEq

/-- One card transaction (lines 912–960): the amount is always negated. -/
def cbEntry (acct document fn : String) (idx : Nat) (ch : CBChunk) : Option Entry := do
  let v ← pyDecimal ('-' :: compteNorm ch.c2)
  let d ← parseDateFR ch.c0
  let payee := (squashWs ch.c1).asString
  pure (Entry.txn
    { meta := metaWithDoc fn idx document
      date := d
      flag := "*"
      payee := if payee.isEmpty then "inconnu" else payee
      narration := none
      tags := []
      postings := [{ account := acct, units := ⟨v, "EUR"⟩, cost := none, price := none }] })

/-- The card statement's closing balance (lines 962–993) from the due
amount and the separately re-derived date. -/
def cbClosingEntry (acct document fn : String) (g2 dateStr : List Char) : Option Entry := do
  let v ← pyD ('-' :: compteNorm g2)
  let d ← parseDateFR dateStr
  pure (Entry.bal
    { meta := metaWithDoc fn 0 document, date := some d, account := acct,
      amount := ⟨v, "EUR"⟩ })

/-! ## Projections used by the theorems -/

/-- The unit numbers of a record's postings (for a balance, the asserted
amount). -/
def entryUnitsNumbers : Entry → List Dec
  | .txn t => t.postings.map (fun p => p.units.number)
  | .bal b => [b.amount.number]

/-- A record's metadata. -/
def entryMeta : Entry → Meta
  | .txn t => t.meta
  | .bal b => b.meta

/-- The metadata holds key `k` with value `v`. -/
def hasMetaKV (m : Meta) (k v : String) : Prop := (k, v) ∈ m

/-- The metadata holds key `k` at all. -/
def hasMetaKey (m : Meta) (k : String) : Prop := ∃ v, (k, v) ∈ m

/-! ## Helper lemmas -/

theorem commaToDot_ne_comma (c : Char) : commaToDot c ≠ ',' := by
  by_cases h : c = ',' <;> simp [commaToDot, h]

theorem commaToDot_of_ne (c : Char) (h : c ≠ ',') : commaToDot c = c := by
  simp [commaToDot, h]

theorem pyDecimal_neg (l : List Char) :
    pyDecimal ('-' :: l) = (parseUnsignedDec l).map decNeg := by
  simp [pyDecimal]

theorem digit_dot_ne_sign {c : Char} (h : c.isDigit ∨ c = '.') : c ≠ '-' ∧ c ≠ '+' := by
  constructor <;> rintro rfl <;>
    exact h.elim (fun h1 => absurd h1 (by decide)) (fun h1 => absurd h1 (by decide))

theorem pyDecimal_of_digit_dot {l : List Char} (h : ∀ c ∈ l, c.isDigit ∨ c = '.') :
    pyDecimal l = parseUnsignedDec l := by
  cases l with
  | nil => rfl
  | cons c r =>
    obtain ⟨h1, h2⟩ := digit_dot_ne_sign (h c (by simp))
    simp [pyDecimal, h1, h2]

theorem compteNorm_chars {g : List Char}
    (h : ∀ c ∈ g, c.isDigit ∨ c = '.' ∨ c = ',') :
    ∀ c ∈ compteNorm g, c.isDigit ∨ c = '.' := by
  intro c hc
  simp only [compteNorm, mapComma, stripDots, List.mem_map, List.mem_filter] at hc
  obtain ⟨a, ⟨hag, had⟩, rfl⟩ := hc
  by_cases hcm : a = ','
  · subst hcm; right; simp [commaToDot]
  · rw [commaToDot_of_ne a hcm]
    rcases h a hag with ha | ha | ha
    · exact Or.inl ha
    · exact absurd ha (by simpa using had)
    · exact absurd ha hcm

theorem not_mem_of_digit_dot {l : List Char} (h : ∀ c ∈ l, c.isDigit ∨ c = '.')
    {x : Char} (hx1 : ¬x.isDigit) (hx2 : x ≠ '.') : x ∉ l := fun hm =>
  (h x hm).elim (fun h1 => hx1 h1) hx2

theorem pyD_eq_pyDecimal {l : List Char} (hc : ',' ∉ l) (hu : '_' ∉ l) (hl : l ≠ []) :
    pyD l = pyDecimal l := by
  have hf : l.filter (fun c => !(c = ',' || c = '_')) = l := by
    rw [List.filter_eq_self]
    intro a ha
    simp only [Bool.not_eq_true', Bool.or_eq_false_iff, decide_eq_false_iff_not]
    exact ⟨fun h => hc (h ▸ ha), fun h => hu (h ▸ ha)⟩
  cases l with
  | nil => exact absurd rfl hl
  | cons c r =>
    unfold pyD
    rw [if_neg (by simp), hf]

theorem parseUnsignedDec_ne_nil {l : List Char} {v : Dec}
    (h : parseUnsignedDec l = some v) : l ≠ [] := by
  rintro rfl
  simp [parseUnsignedDec] at h

/-- The digit/dot amount string facts needed to relate `pyD`/`pyDecimal`
on a code-built signed string to the unsigned parse of its magnitude. -/
theorem pyD_signed_of_parse {x : List Char} {v : Dec}
    (hch : ∀ c ∈ x, c.isDigit ∨ c = '.')
    (hx : parseUnsignedDec x = some v) :
    pyD x = some v ∧ pyD ('-' :: x) = some (decNeg v) ∧
      pyDecimal x = some v ∧ pyDecimal ('-' :: x) = some (decNeg v) := by
  have hc : ',' ∉ x := not_mem_of_digit_dot hch (by decide) (by decide)
  have hu : '_' ∉ x := not_mem_of_digit_dot hch (by decide) (by decide)
  have hne : x ≠ [] := parseUnsignedDec_ne_nil hx
  have hdec : pyDecimal x = some v := by rw [pyDecimal_of_digit_dot hch, hx]
  have hdecn : pyDecimal ('-' :: x) = some (decNeg v) := by rw [pyDecimal_neg, hx]; rfl
  refine ⟨?_, ?_, hdec, hdecn⟩
  · rw [pyD_eq_pyDecimal hc hu hne, hdec]
  · have hc2 : ',' ∉ '-' :: x := by simp [hc]
    have hu2 : '_' ∉ '-' :: x := by simp [hu]
    rw [pyD_eq_pyDecimal hc2 hu2 (by simp), hdecn]

/-! ## C10 -/

/-- C10: for every account directory and every value of the `debug`
argument, the constructed importer state has `debug = true`; the
parameter never affects the constructed state. -/
theorem C10_debug_always_true (accountList : String → Option String) (debug : Bool) :
    (pdfboursoInit accountList debug).debug = true ∧
      pdfboursoInit accountList debug = pdfboursoInit accountList false :=
  ⟨rfl, rfl⟩

/-! ## C3 -/

/-- C3 counterexample: on a text matching no dialect marker, `identify`
does not assign any "Unclassified" tag — the stored tag after the call
is whatever the previous document left, so the outcome depends on the
document classified earlier by the same importer instance, contradicting
the claim. -/
theorem C3_counterexample :
    identifyStep (some ("CB")) (S ("hello world")) = (some ("CB"), none) ∧
    identifyStep (some ("Compte")) (S ("hello world")) = (some ("Compte"), none) ∧
    (some ("CB") : Option String) ≠ some ("Compte") := by decide

/-- C3 amended: when no dialect marker matches, `identify` returns no
positive identification (`None`), so the ingest framework attempts no
extraction for that document; but instead of assigning an Unclassified
tag it leaves the stored dialect tag exactly as the previous
classification set it. -/
theorem C3_unclassified_no_extraction (st : Option String) (t : List Char)
    (h : classify t = none) : identifyStep st t = (st, none) := by
  simp [identifyStep, h]

/-- Witness for C3: concrete run on a marker-free text. -/
theorem C3_unclassified_no_extraction_witness :
    identifyStep (some ("CB")) (S ("hello world")) = (some ("CB"), none) :=
  C3_unclassified_no_extraction (some ("CB")) (S ("hello world")) (by decide)

/-! ## C4 -/

/-- A concrete account directory for the C4 counterexample. -/
def alEsp : String → Option String :=
  fun s => if s = "12345678901" then some ("Actif:OPC") else none

/-- C4 counterexample: for a cash-statement (`EspeceBourse`) document
`file_account` returns the bare ledger path — no `":Cash"` suffix is
appended, because the code's branch tests the never-assigned tag
`"EspeceDividende"`. -/
theorem C4_counterexample :
    fileAccount alEsp ("EspeceBourse") (S ("40618 00040 12345678901 x")) =
      some ("Actif:OPC") ∧
    (some ("Actif:OPC") : Option String) ≠ some ("Actif:OPC" ++ ":Cash") := by decide

/-- C4 amended: trade (`Bourse`) and fund (`OPCVM`) documents get the
recovered 12-character ISIN appended to the directory-resolved path;
dividend (`DividendeBourse`) documents get `":Cash"` appended; but cash
(`EspeceBourse`) documents get the bare path with no suffix. -/
theorem C4_account_suffixes :
    (∀ (al : String → Option String) (t compte isin : List Char) (base : String),
      findBourseAcct t = some compte → findIsin t = some isin →
      al compte.asString = some base →
      fileAccount al ("Bourse") t = some (base ++ ":" ++ isin.asString) ∧
      fileAccount al ("OPCVM") t = some (base ++ ":" ++ isin.asString)) ∧
    (∀ (al : String → Option String) (t compte : List Char) (base : String),
      findEspeceAcct t = some compte → al compte.asString = some base →
      fileAccount al ("DividendeBourse") t = some (base ++ ":Cash") ∧
      fileAccount al ("EspeceBourse") t = some base) := by
  constructor
  · intro al t compte isin base hb hi hba
    constructor <;> simp [fileAccount, hb, hi, hba]
  · intro al t compte base he hba
    constructor <;> simp [fileAccount, he, hba]

/-- Witness for C4: concrete documents through both halves. -/
theorem C4_account_suffixes_witness :
    fileAccount alEsp ("Bourse")
        (S ("12345 00040 12345678901 Code ISIN : FR0000120172x")) =
      some ("Actif:OPC" ++ ":" ++ (S ("FR0000120172")).asString) ∧
    fileAccount alEsp ("DividendeBourse") (S ("40618 00040 12345678901 x")) =
      some ("Actif:OPC" ++ ":Cash") :=
  ⟨(C4_account_suffixes.1 alEsp (S ("12345 00040 12345678901 Code ISIN : FR0000120172x"))
      (S ("12345678901")) (S ("FR0000120172")) ("Actif:OPC")
      (by decide) (by decide) (by decide)).1,
   (C4_account_suffixes.2 alEsp (S ("40618 00040 12345678901 x"))
      (S ("12345678901")) ("Actif:OPC") (by decide) (by decide)).1⟩

/-! ## C5 -/

/-- C5: classification is the first match of the fixed ordered table of
presence checks (dividend, cash, trade, fund, card, bank identity,
amortization); a text holding both the dividend marker and a
generic-bank marker is tagged `DividendeBourse`; and classification is a
pure function of the text, so re-running it yields the same tag. -/
theorem C5_first_match_order (t : List Char)
    (hdiv : hasSub (S ("COUPONS REMBOURSEMENTS :")) t = true)
    (hbank : comptePresent t = true) :
    (∀ u, classify u = firstMatchTag markerChecks u) ∧
    classify t = some ("DividendeBourse") ∧
    classify t = classify t := by
  refine ⟨fun u => rfl, ?_, rfl⟩
  simp [classify, hdiv]

/-- Witness for C5: a text holding the dividend marker and the bank
marker. -/
theorem C5_first_match_order_witness :
    (∀ u, classify u = firstMatchTag markerChecks u) ∧
    classify (S ("COUPONS REMBOURSEMENTS : BOURSORAMA BANQUE")) =
      some ("DividendeBourse") ∧
    classify (S ("COUPONS REMBOURSEMENTS : BOURSORAMA BANQUE")) =
      classify (S ("COUPONS REMBOURSEMENTS : BOURSORAMA BANQUE")) :=
  C5_first_match_order (S ("COUPONS REMBOURSEMENTS : BOURSORAMA BANQUE"))
    (by decide) (by decide)

/-! ## C8 -/

/-- A concrete account directory for the C8 failing input. -/
def alC8 : String → Option String :=
  fun s => if s = "12345678901" then some ("Actif:Bourso") else none

/-- C8: evaluating the Compte branch at a failing input — a
checking-account document in which the opening-balance pattern does not
match (and there are no transaction lines and no closing balance).  The
spec requires that the missing field produce no record, but the code's
`entries.append` for the opening balance is unconditional: a balance
record is still emitted, carrying the empty-string placeholder instead
of a date and amount `D("") = 0`. -/
theorem C8_missing_balance_record :
    compteEntriesM alC8 (mkDocument none (fileName ("Compte"))) ("f.pdf")
        (S ("BOURSORAMA BANQUE\n 12345678901 \n")) =
      some [Entry.bal
        { meta := metaWithDoc ("f.pdf") 0 (mkDocument none (fileName ("Compte")))
          date := none
          account := "Actif:Bourso"
          amount := ⟨⟨0, 0⟩, "EUR"⟩ }] := by decide

/-! ## C1: the amount normalizer versus the spec's contract -/

theorem stripSpaces_mapComma (l : List Char) :
    stripSpaces (mapComma l) = mapComma (stripSpaces l) := by
  unfold stripSpaces mapComma
  rw [List.filter_map]
  congr 1
  apply List.filter_congr
  intro c _
  by_cases h : c = ',' <;> simp [Function.comp, commaToDot, h]

theorem stripNbsp_mapComma (l : List Char) :
    stripNbsp (mapComma l) = mapComma (stripNbsp l) := by
  unfold stripNbsp mapComma
  rw [List.filter_map]
  congr 1
  apply List.filter_congr
  intro c _
  by_cases h : c = ',' <;> simp [Function.comp, commaToDot, h]

theorem replaceU00aFuel_eq_self (fuel : Nat) :
    ∀ {l : List Char}, '\x5c' ∉ l → replaceU00aFuel fuel l = l := by
  induction fuel with
  | zero => intro l _; rfl
  | succ fuel ih =>
    intro l h
    cases l with
    | nil => rfl
    | cons c r =>
      have hcx : c ≠ '\x5c' := fun hEq => h (by simp [hEq])
      have hpre : backslashSeq.isPrefixOf (c :: r) = false := by
        simp [backslashSeq, List.isPrefixOf]
        intro hEq
        exact absurd hEq.symm hcx
      simp only [replaceU00aFuel, hpre, Bool.false_eq_true, if_false, List.cons.injEq,
        true_and]
      exact ih (fun hm => h (List.mem_cons_of_mem c hm))

theorem replaceU00a_eq_self {l : List Char} (h : '\x5c' ∉ l) : replaceU00a l = l :=
  replaceU00aFuel_eq_self l.length h

theorem mapComma_eq_self {l : List Char} (h : ',' ∉ l) : mapComma l = l := by
  induction l with
  | nil => rfl
  | cons c r ih =>
    have hc : c ≠ ',' := fun hEq => h (by simp [hEq])
    simp only [mapComma, List.map_cons, List.cons.injEq]
    exact ⟨commaToDot_of_ne c hc, ih (fun hm => h (List.mem_cons_of_mem c hm))⟩

theorem replaceFirstComma_eq {l : List Char} (h : l.count ',' ≤ 1) :
    replaceFirstComma l = mapComma l := by
  induction l with
  | nil => rfl
  | cons c r ih =>
    by_cases hc : c = ','
    · subst hc
      have hr : ',' ∉ r := by
        intro hm
        have h1 : 1 ≤ r.count ',' := List.count_pos_iff.mpr hm
        have h2 : (',' :: r).count ',' = r.count ',' + 1 := List.count_cons_self ',' r
        omega
      simp only [replaceFirstComma, if_pos rfl, mapComma, List.map_cons]
      rw [show List.map commaToDot r = r from mapComma_eq_self hr]
      rfl
    · have hr : r.count ',' ≤ 1 := by
        have h2 : (c :: r).count ',' = r.count ',' := List.count_cons_of_ne (by
          intro hEq; exact hc hEq.symm) r
        omega
      simp only [replaceFirstComma, hc, if_false, mapComma, List.map_cons,
        List.cons.injEq]
      exact ⟨(commaToDot_of_ne c hc).symm ▸ rfl, ih hr⟩

theorem mapComma_not_mem_backslash {l : List Char} (h : '\x5c' ∉ l) :
    '\x5c' ∉ mapComma l := by
  intro hm
  simp only [mapComma, List.mem_map] at hm
  obtain ⟨a, ha, hEq⟩ := hm
  by_cases hc : a = ','
  · rw [hc] at hEq; exact absurd hEq (by decide)
  · rw [commaToDot_of_ne a hc] at hEq; exact h (hEq ▸ ha)

/-- The code's normalization chain agrees with the spec's contract
(strip ordinary and no-break spaces, then replace the last comma by a
point) on every input with no literal backslash and at most one comma —
the shape of every monetary substring the importer's patterns can
capture. -/
theorem pyNormalize_eq_specNormalize {l : List Char} (hb : '\x5c' ∉ l)
    (hc : l.count ',' ≤ 1) : pyNormalize l = specNormalize l := by
  have hcomm : stripNbsp (stripSpaces (mapComma l)) =
      mapComma (stripNbsp (stripSpaces l)) := by
    rw [stripSpaces_mapComma, stripNbsp_mapComma]
  have hsubl : (stripNbsp (stripSpaces l)).Sublist l :=
    ((stripSpaces l).filter_sublist.trans l.filter_sublist)
  have hbs : '\x5c' ∉ stripNbsp (stripSpaces l) := fun hm => hb (hsubl.mem hm)
  have hcnt : (stripNbsp (stripSpaces l)).count ',' ≤ 1 :=
    le_trans (hsubl.count_le ',') hc
  unfold pyNormalize specNormalize
  rw [hcomm, replaceU00a_eq_self (mapComma_not_mem_backslash hbs)]
  by_cases hmem : ',' ∈ stripNbsp (stripSpaces l)
  · rw [if_pos hmem, replaceFirstComma_eq (by
      rw [List.count_reverse]; exact hcnt)]
    simp only [mapComma]
    rw [List.map_reverse, List.reverse_reverse]
  · rw [if_neg hmem, mapComma_eq_self hmem]

/-- C1 counterexample: the dividend dialect's optional withholding
column is fed through the same normalization chain, and when the
stripped string is empty the code's `or 0` turns it into the number
zero — it is not treated as a failure — while the plain `Decimal` parse
of the same empty normalization result does fail. -/
theorem C1_counterexample :
    dividendImpotComponent (S ("")) = some ⟨0, 0⟩ ∧
    Dec.val ⟨0, 0⟩ = 0 ∧
    pyDecimal (pyNormalize (S (""))) = none := by
  refine ⟨by decide, ?_, by decide⟩
  simp [Dec.val]

/-- C1 amended: on every monetary substring the patterns can capture (no
backslash, at most one comma), the code's normalization chain equals the
spec's strip-spaces-and-replace-comma contract, `"1 234,56"` parses to
1234.56 and `"12,5"` to 12.5, and an empty stripped string makes the
`Decimal`-parsed mandatory fields fail — but the dividend dialect's
optional withholding column instead defaults an empty stripped string to
zero via `or 0` (see the counterexample). -/
theorem C1_amount_normalizer (s : List Char) (hb : '\x5c' ∉ s)
    (hc : s.count ',' ≤ 1) :
    pyNormalize s = specNormalize s ∧
    (pyNormalize s = [] → pyDecimal (pyNormalize s) = none) ∧
    (pyDecimal (pyNormalize (S ("1 234,56")))).map Dec.val = some ((123456 : ℚ) / 100) ∧
    (pyDecimal (pyNormalize (S ("12,5")))).map Dec.val = some ((125 : ℚ) / 10) := by
  refine ⟨pyNormalize_eq_specNormalize hb hc, ?_, ?_, ?_⟩
  · intro h
    rw [h]
    decide
  · rw [show pyDecimal (pyNormalize (S ("1 234,56"))) = some ⟨123456, 2⟩ from by decide]
    norm_num [Dec.val]
  · rw [show pyDecimal (pyNormalize (S ("12,5"))) = some ⟨125, 1⟩ from by decide]
    norm_num [Dec.val]

/-- Witness for C1 at `"1 234,56"`. -/
theorem C1_amount_normalizer_witness :
    pyNormalize (S ("1 234,56")) = specNormalize (S ("1 234,56")) ∧
    (pyNormalize (S ("1 234,56")) = [] →
      pyDecimal (pyNormalize (S ("1 234,56"))) = none) ∧
    (pyDecimal (pyNormalize (S ("1 234,56")))).map Dec.val = some ((123456 : ℚ) / 100) ∧
    (pyDecimal (pyNormalize (S ("12,5")))).map Dec.val = some ((125 : ℚ) / 10) :=
  C1_amount_normalizer (S ("1 234,56")) (by decide) (by decide)

/-! ## C2: the positional sign-inference thresholds -/

theorem Dec.val_of_neg (d : Dec) : (decNeg d).val = -d.val := by
  simp [Dec.val, decNeg, neg_div]

theorem Dec.val_lt_zero_iff (d : Dec) : d.val < 0 ↔ d.man < 0 := by
  unfold Dec.val
  have hp : (0 : ℚ) < (10 : ℚ) ^ d.exp := by positivity
  rw [div_neg_iff]
  constructor
  · rintro (⟨h1, h2⟩ | ⟨h1, h2⟩)
    · linarith
    · exact_mod_cast h1
  · intro h
    exact Or.inr ⟨by exact_mod_cast h, hp⟩

theorem Dec.val_pos_iff (d : Dec) : 0 < d.val ↔ 0 < d.man := by
  unfold Dec.val
  have hp : (0 : ℚ) < (10 : ℚ) ^ d.exp := by positivity
  rw [div_pos_iff]
  constructor
  · rintro (⟨h1, h2⟩ | ⟨h1, h2⟩)
    · exact_mod_cast h1
    · linarith
  · intro h
    exact Or.inl ⟨by exact_mod_cast h, hp⟩

/-- C2 counterexample: a transaction line whose matched spans total
exactly 148 characters — "at or above the threshold" in the claim's
words — is still negated as a debit by the code, which only treats
`longueur > 148` as a credit. -/
theorem C2_counterexample :
    (List.replicate 100 'A').length + (S ("01/02/2023")).length +
      (List.replicate 33 ' ').length + (S ("12,34")).length = 148 ∧
    (compteTxnEntry ("Actif:Bourso") ("doc") ("f.pdf") 1 (List.replicate 100 'A')
        (S ("01/02/2023")) (List.replicate 33 ' ') (S ("12,34")) (S (""))).map
      entryUnitsNumbers = some [⟨-1234, 2⟩] ∧
    Dec.val ⟨-1234, 2⟩ < 0 := by
  refine ⟨by decide, by decide, ?_⟩
  norm_num [Dec.val]

/-- C2 amended: for checking-account balance lines the amount is
negative exactly when the combined span length is strictly below 84
(so 83 gives a debit and 84 a credit, as the claim states); but for
transaction lines the code negates whenever the length is at most 148 —
the credit case needs length strictly above 148, so at exactly 148 the
amount is still a debit, contrary to the claim. -/
theorem C2_sign_thresholds (g1 g2 g3 g4 g5 : List Char) (acct document fn : String)
    (idx : Nat) (v : Dec) (d : Date)
    (hch : ∀ c ∈ g4, c.isDigit ∨ c = '.' ∨ c = ',')
    (hv : parseUnsignedDec (compteNorm g4) = some v)
    (hvpos : 0 < v.man)
    (hd : parseDateFR g2 = some d) :
    (pyD (compteBalanceSigned g1 g2 g3 g4) =
        some (if g1.length + g3.length + g2.length + g4.length < 84 then decNeg v else v) ∧
      ((if g1.length + g3.length + g2.length + g4.length < 84 then decNeg v else v).val < 0 ↔
        g1.length + g3.length + g2.length + g4.length < 84)) ∧
    ((compteTxnEntry acct document fn idx g1 g2 g3 g4 g5).map entryUnitsNumbers =
        some [if g1.length + g2.length + g3.length + g4.length > 148 then v else decNeg v] ∧
      ((if g1.length + g2.length + g3.length + g4.length > 148 then v else decNeg v).val < 0 ↔
        g1.length + g2.length + g3.length + g4.length ≤ 148)) := by
  obtain ⟨hpd, hpdn, hdec, hdecn⟩ := pyD_signed_of_parse (compteNorm_chars hch) hv
  have hnv : (decNeg v).val < 0 := by
    rw [Dec.val_of_neg, neg_lt_zero]
    exact (Dec.val_pos_iff v).mpr hvpos
  have hposv : ¬v.val < 0 := by
    have := (Dec.val_pos_iff v).mpr hvpos
    linarith
  refine ⟨⟨?_, ?_⟩, ?_, ?_⟩
  · by_cases hL : g1.length + g3.length + g2.length + g4.length < 84 <;>
      simp [compteBalanceSigned, hL, hpd, hpdn]
  · by_cases hL : g1.length + g3.length + g2.length + g4.length < 84 <;>
      simp [hL, hnv, hposv]
  · by_cases hL : g1.length + g2.length + g3.length + g4.length > 148 <;>
      simp [compteTxnEntry, hL, hdec, hdecn, hd, entryUnitsNumbers]
  · by_cases hL : g1.length + g2.length + g3.length + g4.length > 148 <;>
      simp [hL, hnv, hposv] <;> omega

/-- Witness for C2 on the concrete 83-character balance line of the
spec's boundary example. -/
theorem C2_sign_thresholds_witness :
    (pyD (compteBalanceSigned (List.replicate 59 ' ') (S ("01/02/2023"))
          (List.replicate 6 ' ') (S ("1.234,56"))) =
        some (if (List.replicate 59 ' ').length + (List.replicate 6 ' ').length +
            (S ("01/02/2023")).length + (S ("1.234,56")).length < 84 then
          decNeg ⟨123456, 2⟩ else ⟨123456, 2⟩) ∧
      ((if (List.replicate 59 ' ').length + (List.replicate 6 ' ').length +
            (S ("01/02/2023")).length + (S ("1.234,56")).length < 84 then
          decNeg ⟨123456, 2⟩ else (⟨123456, 2⟩ : Dec)).val < 0 ↔
        (List.replicate 59 ' ').length + (List.replicate 6 ' ').length +
          (S ("01/02/2023")).length + (S ("1.234,56")).length < 84)) ∧
    ((compteTxnEntry ("Actif:Bourso") ("doc") ("f.pdf") 1 (List.replicate 59 ' ')
          (S ("01/02/2023")) (List.replicate 6 ' ') (S ("1.234,56")) (S (""))).map
        entryUnitsNumbers =
        some [if (List.replicate 59 ' ').length + (S ("01/02/2023")).length +
            (List.replicate 6 ' ').length + (S ("1.234,56")).length > 148 then
          (⟨123456, 2⟩ : Dec) else decNeg ⟨123456, 2⟩] ∧
      ((if (List.replicate 59 ' ').length + (S ("01/02/2023")).length +
            (List.replicate 6 ' ').length + (S ("1.234,56")).length > 148 then
          (⟨123456, 2⟩ : Dec) else decNeg ⟨123456, 2⟩).val < 0 ↔
        (List.replicate 59 ' ').length + (S ("01/02/2023")).length +
          (List.replicate 6 ' ').length + (S ("1.234,56")).length ≤ 148)) :=
  C2_sign_thresholds (List.replicate 59 ' ') (S ("01/02/2023")) (List.replicate 6 ' ')
    (S ("1.234,56")) (S ("")) ("Actif:Bourso") ("doc") ("f.pdf") 1 ⟨123456, 2⟩
    ⟨2023, 2, 1⟩ (by decide) (by decide) (by decide) (by decide)

/-! ## C6: purchase/sale sign inversion in the Bourse dialect -/

/-- C6: the TradeShare transaction satisfies the purchase/sale sign
relation: with the `ACHAT COMPTANT` marker present the security leg
carries the positive quantity with a cost basis and the cash leg the
negated transaction total; with it absent the security leg is the
negated quantity with no cost basis and the cash leg the positive
total; the fee leg is the unsigned parsed fee either way. -/
theorem C6_trade_sign (al : String → Option String) (compte base : String)
    (f : BourseFields) (t : List Char) (document fn : String)
    (q crs total fr : Dec) (d : Date)
    (hq : pyDecimal (pyNormalize f.quantite) = some q)
    (hcr : pyDecimal (pyNormalize f.cours) = some crs)
    (hb : al compte = some base)
    (ht : pyDecimal (pyNormalize f.montantTotal) = some total)
    (hf : pyDecimal (pyNormalize f.frais) = some fr)
    (hd : parseDateFR f.dateStr = some d)
    (hqpos : 0 < q.man) (htpos : 0 < total.man) :
    ∃ tx, bourseEntry al compte f t document fn = some (Entry.txn tx) ∧
      ∃ p1 p2 p3, tx.postings = [p1, p2, p3] ∧
        (bourseAchat t = true →
          p1.units.number = q ∧ 0 < p1.units.number.val ∧ p1.cost.isSome = true ∧
          p2.units.number = decNeg total ∧ p2.units.number.val < 0) ∧
        (bourseAchat t = false →
          p1.units.number = decNeg q ∧ p1.units.number.val < 0 ∧ p1.cost = none ∧
          p2.units.number = total ∧ 0 < p2.units.number.val) ∧
        p3.units.number = fr := by
  have hres : bourseEntry al compte f t document fn = some (Entry.txn
      { meta := metaWithDoc fn 0 document
        date := d
        flag := "*"
        payee := if f.designation.isEmpty then "inconnu" else f.designation
        narration := some f.isin
        tags := []
        postings :=
          [{ account := base ++ ":" ++ f.isin
             units := ⟨decScale (if bourseAchat t then 1 else -1) q, f.isin⟩
             cost := if bourseAchat t then some ⟨crs, f.currencyCours⟩ else none
             price := some ⟨crs, f.currencyCours⟩ },
           { account := base ++ ":Cash"
             units := ⟨decScale (if bourseAchat t then -1 else 1) total, f.currencyTotal⟩
             cost := none, price := none },
           { account := "Depenses:Banque:Frais", units := ⟨fr, f.currencyFrais⟩,
             cost := none, price := none }] }) := by
    simp [bourseEntry, hq, hcr, hb, ht, hf, hd]
  refine ⟨_, hres, _, _, _, rfl, ?_, ?_, rfl⟩
  · intro hA
    refine ⟨by simp [hA, decScale], ?_, by simp [hA], by simp [hA, decScale, decNeg], ?_⟩
    · rw [Dec.val_pos_iff]
      simp [hA, decScale]
      omega
    · rw [Dec.val_lt_zero_iff]
      simp [hA, decScale]
      omega
  · intro hA
    refine ⟨by simp [hA, decScale, decNeg], ?_, by simp [hA], by simp [hA, decScale], ?_⟩
    · rw [Dec.val_lt_zero_iff]
      simp [hA, decScale]
      omega
    · rw [Dec.val_pos_iff]
      simp [hA, decScale]
      omega

/-- A concrete account directory for the C6 and C7 witnesses. -/
def alW : String → Option String :=
  fun s => if s = "12345678901" then some ("Actif:PEA") else none

/-- Concrete trade fields for the C6 witness. -/
def bfW : BourseFields :=
  { montantTotal := S ("1 234,56")
    currencyTotal := "EUR"
    frais := S ("1,99")
    currencyFrais := "EUR"
    isin := "FR0000120172"
    dateStr := S ("01/02/2023")
    quantite := S ("1 038")
    designation := "TOTAL"
    cours := S ("1,19")
    currencyCours := "EUR" }

/-- Witness for C6 on a concrete purchase document. -/
theorem C6_trade_sign_witness :
    ∃ tx, bourseEntry alW ("12345678901") bfW (S ("xx ACHAT COMPTANT yy")) ("d") ("f") =
        some (Entry.txn tx) ∧
      ∃ p1 p2 p3, tx.postings = [p1, p2, p3] ∧
        (bourseAchat (S ("xx ACHAT COMPTANT yy")) = true →
          p1.units.number = ⟨1038, 0⟩ ∧ 0 < p1.units.number.val ∧
          p1.cost.isSome = true ∧
          p2.units.number = decNeg ⟨123456, 2⟩ ∧ p2.units.number.val < 0) ∧
        (bourseAchat (S ("xx ACHAT COMPTANT yy")) = false →
          p1.units.number = decNeg ⟨1038, 0⟩ ∧ p1.units.number.val < 0 ∧
          p1.cost = none ∧
          p2.units.number = ⟨123456, 2⟩ ∧ 0 < p2.units.number.val) ∧
        p3.units.number = ⟨199, 2⟩ :=
  C6_trade_sign alW ("12345678901") ("Actif:PEA") bfW (S ("xx ACHAT COMPTANT yy"))
    ("d") ("f") ⟨1038, 0⟩ ⟨119, 2⟩ ⟨123456, 2⟩ ⟨199, 2⟩ ⟨2023, 2, 1⟩
    (by decide) (by decide) (by decide) (by decide) (by decide) (by decide)
    (by decide) (by decide)

/-! ## C7: amortization lines -/

/-- C7: every matched amortization line yields exactly one four-posting
transaction (bank debit = negated deduction, loan leg = principal,
interest leg, insurance leg) immediately followed by exactly one balance
assertion dated one day later whose amount is the negated
remaining-principal-due, asserted against the loan account. -/
theorem C7_amortization (al : String → Option String) (compte fn : String) (idx : Nat)
    (ch : AmortChunk) (acct : String) (d : Date) (v1 v2 v3 v4 v7 : Dec)
    (hd : parseDateFR ch.c0 = some d)
    (h1 : parseUnsignedDec (mapComma ch.c1) = some v1)
    (h2 : pyDecimal (mapComma ch.c2) = some v2)
    (h3 : pyDecimal (mapComma ch.c3) = some v3)
    (h4 : pyDecimal (mapComma ch.c4) = some v4)
    (h7 : parseUnsignedDec (mapComma ch.c7) = some v7)
    (ha : al compte = some acct) :
    ∃ tx bal,
      amortChunkEntries al compte fn idx ch = some [Entry.txn tx, Entry.bal bal] ∧
      tx.date = d ∧
      (tx.postings.map fun p => (p.account, p.units.number)) =
        [("Actif:Boursorama:CCJoint", decNeg v1), (acct, v2),
         ("Depenses:Banque:Interet", v3), ("Depenses:Banque:AssuEmprunt", v4)] ∧
      bal.date = some (nextDay d) ∧ bal.account = acct ∧
      bal.amount.number = decNeg v7 := by
  have hn1 : pyDecimal ('-' :: mapComma ch.c1) = some (decNeg v1) := by
    rw [pyDecimal_neg, h1]; rfl
  have hn7 : pyDecimal ('-' :: mapComma ch.c7) = some (decNeg v7) := by
    rw [pyDecimal_neg, h7]; rfl
  have hres : amortChunkEntries al compte fn idx ch = some [Entry.txn
      { meta := metaAmort fn idx
        date := d
        flag := "*"
        payee := "ECH PRET:8028000060686223"
        narration := some ("")
        tags := []
        postings :=
          [{ account := "Actif:Boursorama:CCJoint", units := ⟨decNeg v1, "EUR"⟩,
             cost := none, price := none },
           { account := acct, units := ⟨v2, "EUR"⟩, cost := none, price := none },
           { account := "Depenses:Banque:Interet", units := ⟨v3, "EUR"⟩,
             cost := none, price := none },
           { account := "Depenses:Banque:AssuEmprunt", units := ⟨v4, "EUR"⟩,
             cost := none, price := none }] },
    Entry.bal
      { meta := metaAmort fn idx
        date := some (nextDay d)
        account := acct
        amount := ⟨decNeg v7, "EUR"⟩ }] := by
    simp [amortChunkEntries, hd, hn1, h2, h3, h4, hn7, ha]
  exact ⟨_, _, hres, rfl, rfl, rfl, rfl, rfl⟩

/-- A concrete amortization line for the C7 witness. -/
def achW : AmortChunk :=
  { c0 := S ("05/03/2023")
    c1 := S ("1100,00")
    c2 := S ("900,00")
    c3 := S ("150,00")
    c4 := S ("50,00")
    c5 := S ("0,00")
    c6 := S ("0,00")
    c7 := S ("98765,43")
    c8 := S ("123,45") }

/-- Witness for C7 on a concrete line. -/
theorem C7_amortization_witness :
    ∃ tx bal,
      amortChunkEntries alW ("12345678901") ("f") 1 achW =
        some [Entry.txn tx, Entry.bal bal] ∧
      tx.date = ⟨2023, 3, 5⟩ ∧
      (tx.postings.map fun p => (p.account, p.units.number)) =
        [("Actif:Boursorama:CCJoint", decNeg ⟨110000, 2⟩), ("Actif:PEA", ⟨90000, 2⟩),
         ("Depenses:Banque:Interet", ⟨15000, 2⟩),
         ("Depenses:Banque:AssuEmprunt", ⟨5000, 2⟩)] ∧
      bal.date = some (nextDay ⟨2023, 3, 5⟩) ∧ bal.account = "Actif:PEA" ∧
      bal.amount.number = decNeg ⟨9876543, 2⟩ :=
  C7_amortization alW ("12345678901") ("f") 1 achW ("Actif:PEA") ⟨2023, 3, 5⟩
    ⟨110000, 2⟩ ⟨90000, 2⟩ ⟨15000, 2⟩ ⟨5000, 2⟩ ⟨9876543, 2⟩
    (by decide) (by decide) (by decide) (by decide) (by decide) (by decide) (by decide)

/-! ## C9: the shared metadata keys -/

/-- A concrete account directory for the C9 counterexample. -/
def alC9 : String → Option String :=
  fun s => if s = "12345 - 12345678901" then some ("Passif:Pret") else none

/-- C9 counterexample: both records emitted for a concrete amortization
line carry the `source` key but no `document` key — the Amortissement
branch never sets `meta["document"]`, so not every record carries the
document label. -/
theorem C9_counterexample :
    (amortChunkEntries alC9 ("12345 - 12345678901") ("f.pdf") 1 achW).map
        (List.map (fun e =>
          ((entryMeta e).lookup ("source"), (entryMeta e).lookup ("document")))) =
      some [(some ("pdfbourso"), none), (some ("pdfbourso"), none)] := by decide

/-- Destructuring an Option bind that succeeded. -/
theorem optionBindSome {α β : Type} {a : Option α} {f : α → Option β} {b : β}
    (h : (a >>= f) = some b) : ∃ x, a = some x ∧ f x = some b := by
  cases a with
  | none => exact Option.noConfusion h
  | some x => exact ⟨x, rfl, h⟩

/-- C9 amended: every record of every dialect builder carries the
`source = "pdfbourso"` origin tag, and every dialect except
Amortissement also stores the synthesized document label under
`document`; the Amortissement branch's records carry no `document` key
at all. -/
theorem C9_metadata :
    (∀ account document fn ch e, dividendEntry account document fn ch = some e →
      hasMetaKV (entryMeta e) "source" "pdfbourso" ∧
        hasMetaKV (entryMeta e) "document" document) ∧
    (∀ account document fn ch e, especeEntry account document fn ch = some e →
      hasMetaKV (entryMeta e) "source" "pdfbourso" ∧
        hasMetaKV (entryMeta e) "document" document) ∧
    (∀ al compte f t document fn e, bourseEntry al compte f t document fn = some e →
      hasMetaKV (entryMeta e) "source" "pdfbourso" ∧
        hasMetaKV (entryMeta e) "document" document) ∧
    (∀ al compte f t document fn e, opcvmEntry al compte f t document fn = some e →
      hasMetaKV (entryMeta e) "source" "pdfbourso" ∧
        hasMetaKV (entryMeta e) "document" document) ∧
    (∀ acct document fn t e, compteOpeningEntry acct document fn t = some e →
      hasMetaKV (entryMeta e) "source" "pdfbourso" ∧
        hasMetaKV (entryMeta e) "document" document) ∧
    (∀ acct document fn idx g1 g2 g3 g4 g5 e,
      compteTxnEntry acct document fn idx g1 g2 g3 g4 g5 = some e →
      hasMetaKV (entryMeta e) "source" "pdfbourso" ∧
        hasMetaKV (entryMeta e) "document" document) ∧
    (∀ acct document fn t l, compteClosingEntries acct document fn t = some l →
      ∀ e ∈ l, hasMetaKV (entryMeta e) "source" "pdfbourso" ∧
        hasMetaKV (entryMeta e) "document" document) ∧
    (∀ acct document fn idx ch e, cbEntry acct document fn idx ch = some e →
      hasMetaKV (entryMeta e) "source" "pdfbourso" ∧
        hasMetaKV (entryMeta e) "document" document) ∧
    (∀ acct document fn g2 ds e, cbClosingEntry acct document fn g2 ds = some e →
      hasMetaKV (entryMeta e) "source" "pdfbourso" ∧
        hasMetaKV (entryMeta e) "document" document) ∧
    (∀ al compte fn idx ch l, amortChunkEntries al compte fn idx ch = some l →
      ∀ e ∈ l, hasMetaKV (entryMeta e) "source" "pdfbourso" ∧
        ¬hasMetaKey (entryMeta e) "document") := by
  refine ⟨?_, ?_, ?_, ?_, ?_, ?_, ?_, ?_, ?_, ?_⟩
  · intro account document fn ch e h
    unfold dividendEntry at h
    obtain ⟨g, -, h⟩ := optionBindSome h
    obtain ⟨t1, -, h⟩ := optionBindSome h
    obtain ⟨t2, -, h⟩ := optionBindSome h
    obtain ⟨net, -, h⟩ := optionBindSome h
    obtain ⟨d, -, h⟩ := optionBindSome h
    cases h
    simp [entryMeta, hasMetaKV, metaWithDoc, newMetadata]
  · intro account document fn ch e h
    unfold especeEntry at h
    obtain ⟨d, -, h⟩ := optionBindSome h
    obtain ⟨v, -, h⟩ := optionBindSome h
    cases h
    simp [entryMeta, hasMetaKV, metaWithDoc, newMetadata]
  · intro al compte f t document fn e h
    unfold bourseEntry at h
    obtain ⟨q, -, h⟩ := optionBindSome h
    obtain ⟨crs, -, h⟩ := optionBindSome h
    obtain ⟨base, -, h⟩ := optionBindSome h
    obtain ⟨total, -, h⟩ := optionBindSome h
    obtain ⟨fr, -, h⟩ := optionBindSome h
    obtain ⟨d, -, h⟩ := optionBindSome h
    cases h
    simp [entryMeta, hasMetaKV, metaWithDoc, newMetadata]
  · intro al compte f t document fn e h
    unfold opcvmEntry at h
    obtain ⟨q, -, h⟩ := optionBindSome h
    obtain ⟨crs, -, h⟩ := optionBindSome h
    obtain ⟨base, -, h⟩ := optionBindSome h
    obtain ⟨total, -, h⟩ := optionBindSome h
    obtain ⟨fr, -, h⟩ := optionBindSome h
    obtain ⟨dr, -, h⟩ := optionBindSome h
    obtain ⟨d, -, h⟩ := optionBindSome h
    cases h
    simp [entryMeta, hasMetaKV, metaWithDoc, newMetadata]
  · intro acct document fn t e h
    unfold compteOpeningEntry at h
    obtain ⟨p, -, h⟩ := optionBindSome h
    obtain ⟨v, -, h⟩ := optionBindSome h
    cases h
    simp [entryMeta, hasMetaKV, metaWithDoc, newMetadata]
  · intro acct document fn idx g1 g2 g3 g4 g5 e h
    unfold compteTxnEntry at h
    obtain ⟨v, -, h⟩ := optionBindSome h
    obtain ⟨d, -, h⟩ := optionBindSome h
    cases h
    simp [entryMeta, hasMetaKV, metaWithDoc, newMetadata]
  · intro acct document fn t l h e he
    unfold compteClosingEntries at h
    split at h
    · cases h
      simp at he
    · split at h
      all_goals split at h
      all_goals first
        | (cases h
           simp at he)
        | (obtain ⟨d, -, h⟩ := optionBindSome h
           obtain ⟨v, -, h⟩ := optionBindSome h
           cases h
           simp only [List.mem_singleton] at he
           subst he
           simp [entryMeta, hasMetaKV, metaWithDoc, newMetadata])
  · intro acct document fn idx ch e h
    unfold cbEntry at h
    obtain ⟨v, -, h⟩ := optionBindSome h
    obtain ⟨d, -, h⟩ := optionBindSome h
    cases h
    simp [entryMeta, hasMetaKV, metaWithDoc, newMetadata]
  · intro acct document fn g2 ds e h
    unfold cbClosingEntry at h
    obtain ⟨v, -, h⟩ := optionBindSome h
    obtain ⟨d, -, h⟩ := optionBindSome h
    cases h
    simp [entryMeta, hasMetaKV, metaWithDoc, newMetadata]
  · intro al compte fn idx ch l h e he
    unfold amortChunkEntries at h
    obtain ⟨d, -, h⟩ := optionBindSome h
    obtain ⟨v1, -, h⟩ := optionBindSome h
    obtain ⟨v2, -, h⟩ := optionBindSome h
    obtain ⟨v3, -, h⟩ := optionBindSome h
    obtain ⟨v4, -, h⟩ := optionBindSome h
    obtain ⟨v7, -, h⟩ := optionBindSome h
    obtain ⟨acct, -, h⟩ := optionBindSome h
    cases h
    simp only [List.mem_cons, List.not_mem_nil, or_false] at he
    rcases he with rfl | rfl <;>
      simp [entryMeta, hasMetaKV, hasMetaKey, metaAmort, newMetadata]

/-- Witness for C9 on a concrete cash-statement balance record. -/
theorem C9_metadata_witness :
    hasMetaKV (entryMeta (Entry.bal
      { meta := metaWithDoc ("f") 0 ("doc")
        date := some ⟨2023, 2, 1⟩
        account := "A" ++ ":Cash"
        amount := ⟨⟨125, 1⟩, "EUR"⟩ })) "source" "pdfbourso" ∧
    hasMetaKV (entryMeta (Entry.bal
      { meta := metaWithDoc ("f") 0 ("doc")
        date := some ⟨2023, 2, 1⟩
        account := "A" ++ ":Cash"
        amount := ⟨⟨125, 1⟩, "EUR"⟩ })) "document" ("doc") :=
  C9_metadata.2.1 ("A") ("doc") ("f") ⟨S ("01/02/2023"), S ("12,5")⟩ _ (by decide)

end Pdfbourso
